import Mathlib

/-!
Shallow embedding of the frame-resource ring, dirty-driven parameter
propagation, per-pass constants, the dynamic water vertex feed, and the
wave-height simulation of CastleApp.cpp (GAME3111 assignment).
Machine floats are modelled over the rationals; machine integers over Nat.
-/

namespace CastleApp

/-- Number of buffered frame resources, from the source constant
gNumFrameResources = 3. -/
def gNumFrameResources : ℕ := 3

/-- Reference held by the water geometry field VertexBufferGPU: either a
static (or null) buffer, or the dynamic wave vertex buffer owned by frame
slot i.  From CastleApp.cpp, mWavesRitem->Geo->VertexBufferGPU. -/
inductive VBRef where
  | static : VBRef
  | slot : Fin 3 → VBRef
deriving DecidableEq, Repr

/-- Host-visible synchronization state of CastleApp: the frame-resource
ring cursor mCurrFrameResourceIndex, the per-slot fence values
FrameResource::Fence, the fence counter mCurrentFence, the engine progress
mFence->GetCompletedValue(), and the water geometry vertex buffer
reference set by UpdateWater. -/
structure AppState where
  cursor : Fin 3
  fences : Fin 3 → ℕ
  completed : ℕ
  currentFence : ℕ
  wavesGeoVB : VBRef

/-- Initial state: the app starts with mCurrFrameResourceIndex = 0, every
FrameResource fence zero, mCurrentFence = 0 (set by D3DApp), and the water
geometry vertex buffer not yet pointed at any frame slot. -/
def initState : AppState :=
  { cursor := 0, fences := fun _ => 0, completed := 0, currentFence := 0,
    wavesGeoVB := VBRef.static }

/-- Frame-ring advance from CastleApp::Update lines 264-265: the cursor is
incremented modulo gNumFrameResources and the frame resource at the new
cursor becomes current. -/
def advance (s : AppState) : AppState :=
  { s with cursor := s.cursor + 1 }

/-- Wait condition from CastleApp::Update line 269: the host blocks iff the
selected slot fence is nonzero and the reported completed value is still
below it. -/
def advanceBlocked (s : AppState) : Bool :=
  decide (s.fences (s.cursor + 1) ≠ 0) &&
    decide (s.completed < s.fences (s.cursor + 1))

/-- Engine progress report: mFence->GetCompletedValue() becomes v after the
GPU signals the fence.  Models the completion signal delivery. -/
def signal (s : AppState) (v : ℕ) : AppState :=
  { s with completed := v }

/-- From CastleApp::UpdateWater line 571: the water render item geometry
vertex buffer is repointed at the WavesVB of the current frame resource. -/
def waterRepoint (s : AppState) : AppState :=
  { s with wavesGeoVB := VBRef.slot s.cursor }

/-- Slot retirement from CastleApp::Draw line 344: the fence counter is
pre-incremented and stored as the current slot fence
(mCurrFrameResource->Fence = ++mCurrentFence). -/
def retire (s : AppState) : AppState :=
  { s with fences := Function.update s.fences s.cursor (s.currentFence + 1),
           currentFence := s.currentFence + 1 }

/-- One host tick with no intervening completion signal: Update advances
the ring (and repoints the water vertex buffer at the now-current slot),
then Draw submits and retires the slot with a fresh fence value. -/
def tick (s : AppState) : AppState :=
  retire (waterRepoint (advance s))

/-- Per-item body of CastleApp::UpdateObjectCBs lines 428-439 restricted to
the dirty counter: when NumFramesDirty is positive the item data is copied
(true) and the counter decremented, otherwise no copy happens. -/
def objectCBPass (numFramesDirty : ℕ) : Bool × ℕ :=
  if 0 < numFramesDirty then (true, numFramesDirty - 1)
  else (false, numFramesDirty)

/-- Per-material body of CastleApp::UpdateMaterialCBs lines 494-509
restricted to the dirty counter: when NumFramesDirty is positive the
material data is copied (true) and the counter decremented. -/
def materialCBPass (numFramesDirty : ℕ) : Bool × ℕ :=
  if 0 < numFramesDirty then (true, numFramesDirty - 1)
  else (false, numFramesDirty)

/-- The dirty-countdown view of one entity across ticks: the ring cursor
together with the entity NumFramesDirty counter. -/
structure SlotWalk where
  cursor : Fin 3
  dirty : ℕ
deriving DecidableEq, Repr

/-- One tick of CastleApp::Update as seen by a single render item: the
cursor advances first (line 264), then UpdateObjectCBs runs its pass; the
second component reports the slot copied into, if any. -/
def slotTickObj (s : SlotWalk) : SlotWalk × Option (Fin 3) :=
  let c := s.cursor + 1
  let r := objectCBPass s.dirty
  (⟨c, r.2⟩, if r.1 then some c else none)

/-- One tick of CastleApp::Update as seen by a single material: the cursor
advances first, then UpdateMaterialCBs runs its pass. -/
def slotTickMat (s : SlotWalk) : SlotWalk × Option (Fin 3) :=
  let c := s.cursor + 1
  let r := materialCBPass s.dirty
  (⟨c, r.2⟩, if r.1 then some c else none)

/-- 4x4 rational matrix, the embedding of XMFLOAT4X4 / XMMATRIX values. -/
abbrev Mat4 := Matrix (Fin 4) (Fin 4) ℚ

/-- Matrix inverse via the adjugate, the embedding of XMMatrixInverse. -/
def mInv (A : Mat4) : Mat4 := A.det⁻¹ • A.adjugate

/-- Row-major scaling matrix, the embedding of XMMatrixScaling. -/
def scaling4 (a b c : ℚ) : Mat4 := Matrix.diagonal ![a, b, c, 1]

/-- Row-major translation matrix, the embedding of XMMatrixTranslation. -/
def translation4 (x y z : ℚ) : Mat4 :=
  Matrix.of ![![1, 0, 0, 0], ![0, 1, 0, 0], ![0, 0, 1, 0], ![x, y, z, 1]]

/-- Rational 3-vector, the embedding of XMFLOAT3. -/
structure Vec3 where
  x : ℚ
  y : ℚ
  z : ℚ
deriving DecidableEq, Repr

/-- The fields of RenderItem (CastleApp.cpp lines 42-72) that the object
propagation pass reads or writes: the world transform, the texture
transform, the stable constant-buffer index and the dirty counter. -/
structure RenderItemM where
  world : Mat4
  texTransform : Mat4
  objCBIndex : ℕ
  numFramesDirty : ℕ

/-- Modelled from the spec: FrameResource.h (defining ObjectConstants) is
not under src, so the object parameter-buffer entry follows the spec data
model, in which a SceneObject parameter snapshot comprises the world
transform and the texture transform; both fields default to the identity,
as the entry is default-initialized before the pass fills it. -/
structure ObjectConstants where
  world : Mat4 := 1
  texTransform : Mat4 := 1
deriving DecidableEq

/-- The entry built by CastleApp::UpdateObjectCBs lines 430-435 for one
dirty item: only the transposed world matrix is stored into the constants;
no other field of the entry is assigned. -/
def objectCBWrite (e : RenderItemM) : ObjectConstants :=
  { world := e.world.transpose }

/-- CastleApp::UpdateObjectCBs lines 421-441 over the item list: every
item with a positive dirty counter gets its entry copied to its stable
index and its counter decremented; clean items are untouched. -/
def updateObjectCBs (items : List RenderItemM) :
    List (ℕ × ObjectConstants) × List RenderItemM :=
  (items.filterMap fun e =>
      if 0 < e.numFramesDirty then some (e.objCBIndex, objectCBWrite e)
      else none,
   items.map fun e =>
      if 0 < e.numFramesDirty then { e with numFramesDirty := e.numFramesDirty - 1 }
      else e)

/-- The water render item as built in CastleApp::BuildRenderItems lines
1404-1416: world = translation(0, 0.1, 0), texture transform =
scaling(5, 5, 1), object constant-buffer index 36 (37th item built),
dirty counter at its RenderItem default gNumFrameResources. -/
def waterRitemM : RenderItemM :=
  { world := translation4 0 (1 / 10) 0, texTransform := scaling4 5 5 1,
    objCBIndex := 36, numFramesDirty := gNumFrameResources }

/-- One light entry of the pass constants block (Light struct fields the
source assigns in UpdateMainPassCB; fields the source leaves unassigned
are modelled as zero). -/
structure LightM where
  strength : Vec3
  direction : Vec3
  position : Vec3
  falloffStart : ℚ
  falloffEnd : ℚ
deriving DecidableEq, Repr

/-- Directional light as assigned in UpdateMainPassCB lines 467-472: only
direction and strength are set. -/
def dirLight (d s : Vec3) : LightM :=
  { strength := s, direction := d, position := ⟨0, 0, 0⟩,
    falloffStart := 0, falloffEnd := 0 }

/-- Point light as assigned in UpdateMainPassCB lines 474-481: position,
strength and the falloff interval are set. -/
def pointLight (p s : Vec3) (fs fe : ℚ) : LightM :=
  { strength := s, direction := ⟨0, 0, 0⟩, position := p,
    falloffStart := fs, falloffEnd := fe }

/-- The per-pass parameter block written once per tick, with the fields
assigned by CastleApp::UpdateMainPassCB lines 443-485. -/
structure PassConstantsM where
  view : Mat4
  invView : Mat4
  proj : Mat4
  invProj : Mat4
  viewProj : Mat4
  invViewProj : Mat4
  eyePosW : Vec3
  renderTargetSize : ℚ × ℚ
  invRenderTargetSize : ℚ × ℚ
  nearZ : ℚ
  farZ : ℚ
  totalTime : ℚ
  deltaTime : ℚ
  ambientLight : ℚ × ℚ × ℚ × ℚ
  lights : List LightM
deriving DecidableEq

/-- The CastleApp members UpdateMainPassCB reads (mView, mProj, mEyePos,
client size, timer values), together with the dirty counters of the render
items and materials, which the pass update never consults. -/
structure RenderStateM where
  view : Mat4
  proj : Mat4
  eyePos : Vec3
  clientWidth : ℚ
  clientHeight : ℚ
  totalTime : ℚ
  deltaTime : ℚ
  objectsDirty : List ℕ
  materialsDirty : List ℕ

/-- The pass block computed by CastleApp::UpdateMainPassCB lines 445-481:
transposed view/projection matrices and their inverses, camera position,
viewport size and reciprocal, near/far planes, timer values, the constant
ambient term, three directional lights and four point lights
(0.57735 = 11547/20000, 0.707 = 707/1000, 5.5 = 11/2, 3.8 = 19/5). -/
def computeMainPassCB (s : RenderStateM) : PassConstantsM :=
  let viewProj := s.view * s.proj
  { view := s.view.transpose
    invView := (mInv s.view).transpose
    proj := s.proj.transpose
    invProj := (mInv s.proj).transpose
    viewProj := viewProj.transpose
    invViewProj := (mInv viewProj).transpose
    eyePosW := s.eyePos
    renderTargetSize := (s.clientWidth, s.clientHeight)
    invRenderTargetSize := (1 / s.clientWidth, 1 / s.clientHeight)
    nearZ := 1
    farZ := 1000
    totalTime := s.totalTime
    deltaTime := s.deltaTime
    ambientLight := (1 / 4, 1 / 4, 7 / 20, 1)
    lights :=
      [ dirLight ⟨11547 / 20000, -(11547 / 20000), 11547 / 20000⟩ ⟨1 / 2, 1 / 2, 1 / 2⟩,
        dirLight ⟨-(11547 / 20000), -(11547 / 20000), 11547 / 20000⟩ ⟨3 / 10, 3 / 10, 3 / 10⟩,
        dirLight ⟨0, -(707 / 1000), -(707 / 1000)⟩ ⟨3 / 20, 3 / 20, 3 / 20⟩,
        pointLight ⟨7, 11 / 2, 7⟩ ⟨1 / 10, 1 / 10, 19 / 5⟩ 1 5,
        pointLight ⟨7, 11 / 2, -7⟩ ⟨1 / 10, 1 / 10, 19 / 5⟩ 1 5,
        pointLight ⟨-7, 11 / 2, 7⟩ ⟨1 / 10, 1 / 10, 19 / 5⟩ 1 5,
        pointLight ⟨-7, 11 / 2, -7⟩ ⟨1 / 10, 1 / 10, 19 / 5⟩ 1 5 ] }

/-- CastleApp::UpdateMainPassCB as a buffer-write list: the recomputed
block is written at index 0 of the pass buffer (line 484), with no guard
of any kind. -/
def updateMainPassCB (s : RenderStateM) : List (ℕ × PassConstantsM) :=
  [(0, computeMainPassCB s)]

/-- A wave vertex as filled by CastleApp::UpdateWater lines 557-565. -/
structure VertexM where
  pos : Vec3
  normal : Vec3
  texC : ℚ × ℚ
deriving DecidableEq, Repr

/-- The dynamic vertex-buffer fill loop of CastleApp::UpdateWater lines
555-568: for every wave vertex index the position and normal are copied
unchanged and the texture coordinates are derived from the position by
u = 0.5 + x / width, v = 0.5 - z / depth. -/
def updateWaterVB (position normal : ℕ → Vec3) (width depth : ℚ)
    (count : ℕ) : List (ℕ × VertexM) :=
  (List.range count).map fun i =>
    (i, { pos := position i, normal := normal i,
          texC := (1 / 2 + (position i).x / width,
                   1 / 2 - (position i).z / depth) })

/-- Water texture scroll from CastleApp::UpdateWater lines 518-531: tu
gains 0.1 * deltaTime and tv gains 0.02 * deltaTime, and 1.0 is subtracted
from any offset that reached or exceeded 1.0. -/
def scrollWater (tu tv dt : ℚ) : ℚ × ℚ :=
  let tu1 := tu + (1 / 10) * dt
  let tv1 := tv + (1 / 50) * dt
  (if 1 ≤ tu1 then tu1 - 1 else tu1, if 1 ≤ tv1 then tv1 - 1 else tv1)

end CastleApp

namespace Waves

/-- Modelled from the spec: the Waves implementation (Waves.h / Waves.cpp)
is not under src, so the WaveField state follows the spec data model: grid
dimensions m and n, spatial step dx, fixed simulation time step dt, wave
speed and damping, the previous and current height grids used as
ping-pong history, and the accumulated simulation time. -/
structure WaveField where
  m : ℕ
  n : ℕ
  dx : ℚ
  dt : ℚ
  speed : ℚ
  damping : ℚ
  prev : ℕ → ℕ → ℚ
  curr : ℕ → ℕ → ℚ
  acc : ℚ

/-- Modelled from the spec: construction with all heights zero and no
accumulated time. -/
def init (m n : ℕ) (dx dt speed damping : ℚ) : WaveField :=
  { m := m, n := n, dx := dx, dt := dt, speed := speed, damping := damping,
    prev := fun _ _ => 0, curr := fun _ _ => 0, acc := 0 }

/-- Common denominator damping * dt + 2 of the finite-difference
coefficients. -/
def coefD (w : WaveField) : ℚ := w.damping * w.dt + 2

/-- Squared Courant ratio c^2 dt^2 / dx^2. -/
def cfl (w : WaveField) : ℚ := w.speed ^ 2 * w.dt ^ 2 / w.dx ^ 2

/-- Modelled from the spec: first coefficient of the discretized wave
equation, k1 = (damping * dt - 2) / (damping * dt + 2). -/
def k1 (w : WaveField) : ℚ := (w.damping * w.dt - 2) / coefD w

/-- Modelled from the spec: second coefficient; the spec leaves the exact
constant a free parameter of the scheme, instantiated here as the standard
k2 = (4 - 8 c^2 dt^2 / dx^2) / (damping * dt + 2). -/
def k2 (w : WaveField) : ℚ := (4 - 8 * cfl w) / coefD w

/-- Modelled from the spec: third coefficient,
k3 = 2 c^2 dt^2 / (dx^2 (damping * dt + 2)). -/
def k3 (w : WaveField) : ℚ := 2 * cfl w / coefD w

/-- Modelled from the spec: one finite-difference step produces the new
current grid; every interior cell (1 <= i < m-1, 1 <= j < n-1) gets
k1 * previous + k2 * current + k3 * (sum of the four direct neighbors of
current); border cells carry the previous-grid value over, matching the
ping-pong rotation in which only interior cells are overwritten. -/
def stepGrid (w : WaveField) : ℕ → ℕ → ℚ := fun i j =>
  if 1 ≤ i ∧ i + 1 < w.m ∧ 1 ≤ j ∧ j + 1 < w.n then
    k1 w * w.prev i j + k2 w * w.curr i j +
      k3 w * (w.curr (i + 1) j + w.curr (i - 1) j +
              w.curr i (j + 1) + w.curr i (j - 1))
  else w.prev i j

/-- Modelled from the spec: after computing the new grid the history is
rotated, previous becomes the old current and current becomes the new
grid (ping-pong, no allocation). -/
def step (w : WaveField) : WaveField :=
  { w with prev := w.curr, curr := stepGrid w }

/-- Number of whole simulation steps the accumulated time covers. -/
def stepsOf (w : WaveField) (elapsed : ℚ) : ℕ :=
  (Int.floor ((w.acc + elapsed) / w.dt)).toNat

/-- Modelled from the spec: update(elapsed) accumulates elapsed time
against the fixed dt and performs one finite-difference step for every
whole dt covered, keeping the remainder accumulated. -/
def update (w : WaveField) (elapsed : ℚ) : WaveField :=
  { step^[stepsOf w elapsed] w with
      acc := w.acc + elapsed - (stepsOf w elapsed : ℚ) * w.dt }

/-- Modelled from the spec: disturb(row, col, magnitude) adds magnitude to
the current grid at (row, col) and half of it to the four direct
neighbors; outside the interior (less than 1 cell from a border) it is a
no-op, the implementation choice documented here. -/
def disturb (w : WaveField) (i j : ℕ) (mag : ℚ) : WaveField :=
  if 1 ≤ i ∧ i + 1 < w.m ∧ 1 ≤ j ∧ j + 1 < w.n then
    { w with curr := fun a b =>
        if a = i ∧ b = j then w.curr a b + mag
        else if (a = i + 1 ∧ b = j) ∨ (a + 1 = i ∧ b = j) ∨
                (a = i ∧ b = j + 1) ∨ (a = i ∧ b + 1 = j) then
          w.curr a b + mag / 2
        else w.curr a b }
  else w

/-- The end-to-end scenario field: m = n = 8, dx = 1, dt = 0.03, wave
speed 4, damping 0.2 (the parameter shape of the construction at
CastleApp.cpp line 222, shrunk to the 8 x 8 grid the spec scenario
fixes). -/
def scenario0 : WaveField := init 8 8 1 (3 / 100) 4 (1 / 5)

/-- The scenario field after disturb(4, 4, 1.0). -/
def scenario1 : WaveField := disturb scenario0 4 4 1

/-- The scenario field after one update(0.03). -/
def scenario2 : WaveField := update scenario1 (3 / 100)

end Waves

namespace CastleApp

/-- C1: on every tick the frame-ring advance increments the slot cursor by
exactly one modulo the ring size, and blocks iff the selected slot fence is
nonzero and the reported completed value is below it; concretely, after 3
submissions with no completion signal the 4th advance blocks, and a signal
covering the oldest fence unblocks it. -/
theorem advance_cursor_and_stall :
    (∀ s : AppState, ((advance s).cursor : ℕ) = ((s.cursor : ℕ) + 1) % 3) ∧
    (∀ s : AppState, advanceBlocked s = true ↔
      (s.fences (s.cursor + 1) ≠ 0 ∧ s.completed < s.fences (s.cursor + 1))) ∧
    advanceBlocked (tick^[3] initState) = true ∧
    advanceBlocked (signal (tick^[3] initState) 1) = false := by
  refine ⟨?_, ?_, by decide, by decide⟩
  · intro s
    simp [advance, Fin.val_add]
  · intro s
    simp [advanceBlocked]

/-- C9: during the first ring-size ticks after startup the advance never
blocks: every slot fence starts at zero, the wait branch is skipped
whenever the selected slot fence is zero, and the first three advance
checks all come out unblocked. -/
theorem first_ring_ticks_never_block :
    (∀ i : Fin 3, initState.fences i = 0) ∧
    (∀ s : AppState, s.fences (s.cursor + 1) = 0 → advanceBlocked s = false) ∧
    (∀ k : ℕ, k < 3 → advanceBlocked (tick^[k] initState) = false) := by
  refine ⟨by decide, ?_, by decide⟩
  intro s h
  simp [advanceBlocked, h]

/-- Witness for C9 at the concrete third startup tick. -/
theorem first_ring_ticks_never_block_witness :
    2 < 3 ∧ advanceBlocked (tick^[2] initState) = false :=
  ⟨by decide, first_ring_ticks_never_block.2.2 2 (by decide)⟩

/-- C5: retiring a slot stores the just-incremented submission counter as
the slot fence; assuming every stored fence is at most the counter (true
initially and preserved), the new marker strictly exceeds every previously
stored marker and the counter strictly increases, so markers form a
strictly increasing sequence across ticks. -/
theorem retire_marker_monotone (s : AppState)
    (h : ∀ i : Fin 3, s.fences i ≤ s.currentFence) :
    (tick s).fences ((advance s).cursor) = s.currentFence + 1 ∧
    (tick s).currentFence = s.currentFence + 1 ∧
    (∀ i : Fin 3, s.fences i < (tick s).fences ((advance s).cursor)) ∧
    (∀ i : Fin 3, (tick s).fences i ≤ (tick s).currentFence) := by
  refine ⟨?_, rfl, ?_, ?_⟩
  · simp [tick, retire, waterRepoint, advance]
  · intro i
    simp only [tick, retire, waterRepoint, advance, Function.update_same]
    exact Nat.lt_succ_of_le (h i)
  · intro i
    by_cases hi : i = s.cursor + 1
    · subst hi
      simp [tick, retire, waterRepoint, advance]
    · simp only [tick, retire, waterRepoint, advance]
      rw [Function.update_noteq hi]
      exact Nat.le_succ_of_le (h i)

/-- Witness for C5 at the initial state, where all fences are zero. -/
theorem retire_marker_monotone_witness :
    (∀ i : Fin 3, initState.fences i ≤ initState.currentFence) ∧
    ((tick initState).fences ((advance initState).cursor) =
        initState.currentFence + 1 ∧
      (tick initState).currentFence = initState.currentFence + 1 ∧
      (∀ i : Fin 3, initState.fences i <
        (tick initState).fences ((advance initState).cursor)) ∧
      (∀ i : Fin 3, (tick initState).fences i ≤ (tick initState).currentFence)) :=
  ⟨by decide, retire_marker_monotone initState (by decide)⟩

/-- C2: a dirty count seeded to the ring size (3) by a single mutation
causes exactly 3 subsequent propagation passes to copy the entity data,
one per distinct frame slot visited, each pass decrementing the count by
one, and the 4th pass performs no copy; this holds for the object pass and
the material pass alike, from any ring position at mutation time. -/
theorem dirty_countdown (c : Fin 3) :
    (let s0 : SlotWalk := ⟨c, gNumFrameResources⟩
     let t1 := slotTickObj s0
     let t2 := slotTickObj t1.1
     let t3 := slotTickObj t2.1
     let t4 := slotTickObj t3.1
     t1.2 = some (c + 1) ∧ t2.2 = some (c + 2) ∧ t3.2 = some (c + 3) ∧
       t1.1.dirty = 2 ∧ t2.1.dirty = 1 ∧ t3.1.dirty = 0 ∧
       t4.2 = none ∧ t4.1.dirty = 0 ∧
       c + 1 ≠ c + 2 ∧ c + 1 ≠ c + 3 ∧ c + 2 ≠ c + 3) ∧
    (let s0 : SlotWalk := ⟨c, gNumFrameResources⟩
     let t1 := slotTickMat s0
     let t2 := slotTickMat t1.1
     let t3 := slotTickMat t2.1
     let t4 := slotTickMat t3.1
     t1.2 = some (c + 1) ∧ t2.2 = some (c + 2) ∧ t3.2 = some (c + 3) ∧
       t1.1.dirty = 2 ∧ t2.1.dirty = 1 ∧ t3.1.dirty = 0 ∧
       t4.2 = none ∧ t4.1.dirty = 0) := by
  revert c
  decide

/-- C8: after every tick the water render item geometry vertex buffer
reference equals the dynamic wave vertex buffer of the slot selected by
that tick, and it is neither the static buffer nor the buffer of any other
slot. -/
theorem water_vb_points_at_active_slot (s : AppState) :
    (tick s).wavesGeoVB = VBRef.slot ((advance s).cursor) ∧
    (∀ j : Fin 3, (tick s).wavesGeoVB = VBRef.slot j ↔ j = (advance s).cursor) ∧
    (tick s).wavesGeoVB ≠ VBRef.static := by
  refine ⟨rfl, ?_, by simp [tick, retire, waterRepoint, advance]⟩
  intro j
  simp [tick, retire, waterRepoint, advance, eq_comm]

/-- C4 (code bug evidence): processing the freshly built water render item
(dirty, texture transform = scaling(5, 5, 1) set deliberately at build
time), the propagation pass writes an entry holding only the transposed
world matrix; the entry texture transform stays at the identity and never
equals the item texture transform, so the copied snapshot does not
comprise the texture transform, contrary to the claim and to the intent
visible in the per-item TexTransform assignments. -/
theorem objectCB_drops_texTransform :
    (updateObjectCBs [waterRitemM]).1 =
      [(36, { world := (translation4 0 (1 / 10) 0).transpose,
              texTransform := 1 })] ∧
    waterRitemM.texTransform ≠ 1 ∧
    (objectCBWrite waterRitemM).texTransform ≠ waterRitemM.texTransform := by
  refine ⟨rfl, ?_, ?_⟩
  · show scaling4 5 5 1 ≠ 1
    decide
  · show (1 : Mat4) ≠ scaling4 5 5 1
    decide

/-- C6: once per tick the complete pass block is recomputed from the
camera, viewport and timer state and written unconditionally at index 0 of
the active slot pass buffer; the write list never depends on any dirty
counter, and the block carries the transposed view/projection matrices and
their inverses, the camera position, the viewport size, the timer values,
the ambient term and the seven-entry light list. -/
theorem mainPassCB_unconditional_write (s : RenderStateM)
    (d1 d2 : List ℕ) :
    updateMainPassCB s = [(0, computeMainPassCB s)] ∧
    updateMainPassCB { s with objectsDirty := d1, materialsDirty := d2 } =
      updateMainPassCB s ∧
    (computeMainPassCB s).view = s.view.transpose ∧
    (computeMainPassCB s).invView = (mInv s.view).transpose ∧
    (computeMainPassCB s).proj = s.proj.transpose ∧
    (computeMainPassCB s).invProj = (mInv s.proj).transpose ∧
    (computeMainPassCB s).viewProj = (s.view * s.proj).transpose ∧
    (computeMainPassCB s).invViewProj = (mInv (s.view * s.proj)).transpose ∧
    (computeMainPassCB s).eyePosW = s.eyePos ∧
    (computeMainPassCB s).renderTargetSize = (s.clientWidth, s.clientHeight) ∧
    (computeMainPassCB s).invRenderTargetSize =
      (1 / s.clientWidth, 1 / s.clientHeight) ∧
    (computeMainPassCB s).totalTime = s.totalTime ∧
    (computeMainPassCB s).deltaTime = s.deltaTime ∧
    (computeMainPassCB s).ambientLight = (1 / 4, 1 / 4, 7 / 20, 1) ∧
    (computeMainPassCB s).lights.length = 7 := by
  exact ⟨rfl, rfl, rfl, rfl, rfl, rfl, rfl, rfl, rfl, rfl, rfl, rfl, rfl,
    rfl, rfl⟩

/-- C7: every vertex copied into the active slot dynamic vertex buffer
keeps the wave position and normal unchanged and carries texture
coordinates u = 0.5 + x / width, v = 0.5 - z / depth derived from the
position. -/
theorem waterVB_entry (position normal : ℕ → Vec3) (width depth : ℚ)
    (count i : ℕ) (h : i < count) :
    (updateWaterVB position normal width depth count)[i]? =
      some (i, { pos := position i, normal := normal i,
                 texC := (1 / 2 + (position i).x / width,
                          1 / 2 - (position i).z / depth) }) := by
  simp only [updateWaterVB, List.getElem?_map, List.getElem?_range h,
    Option.map_some']

/-- Witness for C7 on a concrete two-vertex wave field. -/
theorem waterVB_entry_witness :
    1 < 2 ∧
    (updateWaterVB (fun i => ⟨i, 0, 2 * i⟩) (fun _ => ⟨0, 1, 0⟩) 4 2 2)[1]? =
      some (1, { pos := (fun i : ℕ => (⟨i, 0, 2 * i⟩ : Vec3)) 1,
                 normal := (fun _ : ℕ => (⟨0, 1, 0⟩ : Vec3)) 1,
                 texC := (1 / 2 + ((fun i : ℕ => (⟨i, 0, 2 * i⟩ : Vec3)) 1).x / 4,
                          1 / 2 - ((fun i : ℕ => (⟨i, 0, 2 * i⟩ : Vec3)) 1).z / 2) }) :=
  ⟨by decide,
    waterVB_entry (fun i => ⟨i, 0, 2 * i⟩) (fun _ => ⟨0, 1, 0⟩) 4 2 2 1
      (by decide)⟩

/-- C10: with both scroll offsets in [0,1) and 0 <= 0.1 * deltaTime < 1,
the water scroll update adds 0.1 * deltaTime to tu and 0.02 * deltaTime to
tv, subtracts 1 from any offset that reached or exceeded 1, and leaves
both offsets again in [0,1). -/
theorem scrollWater_preserves_interval (tu tv dt : ℚ)
    (hd0 : 0 ≤ (1 / 10) * dt) (hd1 : (1 / 10) * dt < 1)
    (htu0 : 0 ≤ tu) (htu1 : tu < 1) (htv0 : 0 ≤ tv) (htv1 : tv < 1) :
    scrollWater tu tv dt =
      (if 1 ≤ tu + (1 / 10) * dt then tu + (1 / 10) * dt - 1
        else tu + (1 / 10) * dt,
       if 1 ≤ tv + (1 / 50) * dt then tv + (1 / 50) * dt - 1
        else tv + (1 / 50) * dt) ∧
    0 ≤ (scrollWater tu tv dt).1 ∧ (scrollWater tu tv dt).1 < 1 ∧
    0 ≤ (scrollWater tu tv dt).2 ∧ (scrollWater tu tv dt).2 < 1 := by
  refine ⟨rfl, ?_, ?_, ?_, ?_⟩ <;>
    simp only [scrollWater] <;> split <;>
    rename_i hsplit <;> linarith

/-- Witness for C10 at tu = 1/2, tv = 1/2, deltaTime = 1. -/
theorem scrollWater_preserves_interval_witness :
    (0 ≤ (1 / 10 : ℚ) * 1 ∧ (1 / 10 : ℚ) * 1 < 1 ∧
      (0 : ℚ) ≤ 1 / 2 ∧ (1 / 2 : ℚ) < 1) ∧
    (scrollWater (1 / 2) (1 / 2) 1 =
      (if 1 ≤ (1 / 2 : ℚ) + (1 / 10) * 1 then (1 / 2 : ℚ) + (1 / 10) * 1 - 1
        else (1 / 2 : ℚ) + (1 / 10) * 1,
       if 1 ≤ (1 / 2 : ℚ) + (1 / 50) * 1 then (1 / 2 : ℚ) + (1 / 50) * 1 - 1
        else (1 / 2 : ℚ) + (1 / 50) * 1) ∧
      0 ≤ (scrollWater (1 / 2) (1 / 2) 1).1 ∧
      (scrollWater (1 / 2) (1 / 2) 1).1 < 1 ∧
      0 ≤ (scrollWater (1 / 2) (1 / 2) 1).2 ∧
      (scrollWater (1 / 2) (1 / 2) 1).2 < 1) :=
  ⟨⟨by norm_num, by norm_num, by norm_num, by norm_num⟩,
    scrollWater_preserves_interval (1 / 2) (1 / 2) 1 (by norm_num)
      (by norm_num) (by norm_num) (by norm_num) (by norm_num) (by norm_num)⟩

end CastleApp

namespace Waves

/-- The disturbed current grid as an explicit case split. -/
lemma scenario1_curr_eval (a b : ℕ) :
    scenario1.curr a b =
      if a = 4 ∧ b = 4 then (0 : ℚ) + 1
      else if (a = 4 + 1 ∧ b = 4) ∨ (a + 1 = 4 ∧ b = 4) ∨
              (a = 4 ∧ b = 4 + 1) ∨ (a = 4 ∧ b + 1 = 4) then (0 : ℚ) + 1 / 2
      else 0 := rfl

/-- The disturbed previous grid is still flat. -/
lemma scenario1_prev_eval (a b : ℕ) : scenario1.prev a b = 0 := rfl

/-- Every cell of the disturbed grid is within [-1, 1]. -/
lemma scenario1_curr_abs (a b : ℕ) : |scenario1.curr a b| ≤ 1 := by
  rw [scenario1_curr_eval]
  split_ifs <;> (rw [abs_le]; constructor <;> norm_num)

/-- Coefficient k1 of the scenario field. -/
lemma scenario1_k1 : k1 scenario1 = -(997 / 1003) := by
  norm_num [k1, coefD, scenario1, disturb, scenario0, init]

/-- Coefficient k2 of the scenario field. -/
lemma scenario1_k2 : k2 scenario1 = 9712 / 5015 := by
  norm_num [k2, coefD, cfl, scenario1, disturb, scenario0, init]

/-- Coefficient k3 of the scenario field. -/
lemma scenario1_k3 : k3 scenario1 = 72 / 5015 := by
  norm_num [k3, coefD, cfl, scenario1, disturb, scenario0, init]

/-- One update(0.03) covers exactly one simulation step. -/
lemma scenario1_steps : stepsOf scenario1 (3 / 100) = 1 := by
  have h : (scenario1.acc + 3 / 100) / scenario1.dt = (1 : ℚ) := by
    norm_num [scenario1, disturb, scenario0, init]
  unfold stepsOf
  rw [h, Int.floor_one]
  rfl

/-- The current grid after the scenario update is one step of the
disturbed field. -/
lemma scenario2_curr : scenario2.curr = stepGrid scenario1 := by
  unfold scenario2 update
  rw [scenario1_steps, Function.iterate_one]
  rfl

/-- The previous grid after the scenario update is the disturbed grid. -/
lemma scenario2_prev : scenario2.prev = scenario1.curr := by
  unfold scenario2 update
  rw [scenario1_steps, Function.iterate_one]
  rfl

/-- Generic boundedness of one step: with both history grids within
[-1, 1] and the coefficient sizes bounded, every cell of the stepped grid
is within [-7/2, 7/2]. -/
lemma stepGrid_abs_le (w : WaveField)
    (hp : ∀ i j, |w.prev i j| ≤ 1) (hc : ∀ i j, |w.curr i j| ≤ 1)
    (hk1 : |k1 w| ≤ 1) (hk2 : |k2 w| ≤ 2) (hk3 : |k3 w| ≤ 1 / 8) :
    ∀ i j, |stepGrid w i j| ≤ 7 / 2 := by
  intro i j
  unfold stepGrid
  split
  · have h12 : |w.curr (i + 1) j + w.curr (i - 1) j| ≤ 2 :=
      (abs_add _ _).trans (by linarith [hc (i + 1) j, hc (i - 1) j])
    have h123 : |w.curr (i + 1) j + w.curr (i - 1) j + w.curr i (j + 1)| ≤ 3 :=
      (abs_add _ _).trans (by linarith [hc i (j + 1)])
    have hS : |w.curr (i + 1) j + w.curr (i - 1) j + w.curr i (j + 1) +
        w.curr i (j - 1)| ≤ 4 :=
      (abs_add _ _).trans (by linarith [hc i (j - 1)])
    have t1 : |k1 w * w.prev i j| ≤ 1 * 1 := by
      rw [abs_mul]
      exact mul_le_mul hk1 (hp i j) (abs_nonneg _) (by norm_num)
    have t2 : |k2 w * w.curr i j| ≤ 2 * 1 := by
      rw [abs_mul]
      exact mul_le_mul hk2 (hc i j) (abs_nonneg _) (by norm_num)
    have t3 : |k3 w * (w.curr (i + 1) j + w.curr (i - 1) j +
        w.curr i (j + 1) + w.curr i (j - 1))| ≤ (1 / 8) * 4 := by
      rw [abs_mul]
      exact mul_le_mul hk3 hS (abs_nonneg _) (by norm_num)
    have hsum := abs_add (k1 w * w.prev i j) (k2 w * w.curr i j)
    have hsum2 := abs_add (k1 w * w.prev i j + k2 w * w.curr i j)
      (k3 w * (w.curr (i + 1) j + w.curr (i - 1) j +
        w.curr i (j + 1) + w.curr i (j - 1)))
    linarith
  · exact (hp i j).trans (by norm_num)

/-- C3: in the end-to-end scenario (8 x 8 field, dx = 1, dt = 0.03,
c = 4, damping = 0.2; disturb(4, 4, 1.0); one update(0.03)), the center
cell of the current grid equals 9856/5015, in particular it is nonzero,
the previous grid holds the pre-step value 1 at the center, and every
grid value of both histories is bounded by 7/2 in absolute value (the
rational embedding of finiteness of all grid values). -/
theorem waves_end_to_end :
    scenario2.curr 4 4 = 9856 / 5015 ∧
    scenario2.curr 4 4 ≠ 0 ∧
    scenario2.prev 4 4 = 1 ∧
    (∀ i j : ℕ, |scenario2.curr i j| ≤ 7 / 2 ∧ |scenario2.prev i j| ≤ 7 / 2) := by
  have hm : scenario1.m = 8 := rfl
  have hn : scenario1.n = 8 := rfl
  have hc44 : scenario2.curr 4 4 = 9856 / 5015 := by
    rw [scenario2_curr]
    unfold stepGrid
    rw [if_pos (by rw [hm, hn]; norm_num)]
    rw [show (4 : ℕ) + 1 = 5 from rfl, show (4 : ℕ) - 1 = 3 from rfl,
      scenario1_k1, scenario1_k2, scenario1_k3, scenario1_prev_eval,
      scenario1_curr_eval 4 4, scenario1_curr_eval 5 4,
      scenario1_curr_eval 3 4, scenario1_curr_eval 4 5,
      scenario1_curr_eval 4 3]
    norm_num
  refine ⟨hc44, by rw [hc44]; norm_num, ?_, ?_⟩
  · rw [scenario2_prev, scenario1_curr_eval]
    norm_num
  · intro i j
    constructor
    · rw [scenario2_curr]
      refine stepGrid_abs_le scenario1
        (fun a b => by rw [scenario1_prev_eval]; norm_num)
        scenario1_curr_abs ?_ ?_ ?_ i j
      · rw [scenario1_k1, abs_le]
        constructor <;> norm_num
      · rw [scenario1_k2, abs_le]
        constructor <;> norm_num
      · rw [scenario1_k3, abs_le]
        constructor <;> norm_num
    · rw [scenario2_prev]
      exact (scenario1_curr_abs i j).trans (by norm_num)

end Waves
